import Mathlib

/-!
Verification of the Beeminder CLI goal engine (`beeminder.py`).

Shallow embedding conventions:
* times are integer seconds since the epoch; a civil date is its day number
  `t / 86400` (the Python code calls `datetime.date()`; timezone handling is
  abstracted to UTC day numbers);
* float goal values are embedded as rationals (`ℚ`): the claims under study
  depend only on comparisons, sums, differences and one division, never on
  rounding of binary floats;
* `Goal.rate` embeds the resolved `rate` property (the Python property falls
  back to `mathishard[2]` when the raw field is null; both are plain numbers);
* goals are modelled after hydration: `datapoints` is the stored list and
  `last_datapoint` is present (the CLI front end calls `ensure_datapoints`
  on the whole store before any filtering);
* network effects (fetches, posts) are passed in explicitly as data, so the
  state transition each method performs on the goal is a pure function.
-/

namespace Beeminder

/-- One datapoint of a goal's time series (class `Datapoint`): a value and its
timestamp.  The remaining fields of the Python dataclass (comment, id,
canonical text, ...) do not enter any computation under study. -/
structure Datapoint where
  value : ℚ
  time : ℤ
deriving DecidableEq, Repr

/-- `Datapoint.datetime.date()`: the civil day number of the timestamp. -/
def Datapoint.date (dp : Datapoint) : ℤ := dp.time / 86400

/-- The rate unit (`runits` field): year, month, week, day or hour.  The
remote service only produces these five values; `rate_dict` in the source
raises a key error on anything else. -/
inductive RUnit where
  | y | m | w | d | h
deriving DecidableEq, Repr

/-- `Goal.rate_timedelta` as used by `data_rate`: the window length converted
to whole days.  `rate_dict` maps y→365, m→30, w→7, d→1, h→1/24; subtracting
the resulting `timedelta` from a `datetime.date` ignores the sub-day part, so
the hour unit contributes 0 whole days. -/
def rate_window_days : RUnit → ℤ
  | .y => 365
  | .m => 30
  | .w => 7
  | .d => 1
  | .h => 0

/-- A goal's state (class `Goal`), restricted to the fields the claims read.
`lane` and `yaw` are the two signed integers of the remote snapshot; `won`
is the completion flag; `autodata` is the nullable autodata source. -/
structure Goal where
  slug : String
  title : String
  gtype : String
  autodata : Option String
  losedate : ℤ
  rate : ℚ
  runits : RUnit
  won : Bool
  lane : ℤ
  yaw : ℤ
  last_datapoint : Datapoint
  datapoints : List Datapoint
deriving DecidableEq, Repr

namespace Goal

/-- `Goal.color` (lines 304–320): the status color derived from
`lane * yaw`.  The Python branches are tested top to bottom and the final
branch raises `ValueError`; the raise is embedded as `Except.error`. -/
def color (lane yaw : ℤ) : Except String String :=
  if lane * yaw ≥ -1 then .ok "blue"
  else if lane * yaw > 1 then .ok "green"
  else if lane * yaw = 1 then .ok "yellow"
  else if lane * yaw = -1 then .ok "orange"
  else if lane * yaw ≤ -2 then .ok "red"
  else .error "Wrong color, this should not be possible"

/-- `Goal.is_due_today`: the losedate is within 24 hours of now. -/
def is_due_today (g : Goal) (now : ℤ) : Bool := g.losedate ≤ now + 86400

/-- `Goal.is_do_less`: the goal type is the do-less kind. -/
def is_do_less (g : Goal) : Bool := g.gtype == "drinker"

/-- Whether the first character list is a prefix of the second. -/
def chars_prefix : List Char → List Char → Bool
  | [], _ => true
  | _ :: _, [] => false
  | a :: as, b :: bs => a == b && chars_prefix as bs

/-- Whether the needle occurs as a contiguous run of the haystack (Python's
substring `in`). -/
def chars_contains (needle : List Char) : List Char → Bool
  | [] => needle.isEmpty
  | b :: bs => chars_prefix needle (b :: bs) || chars_contains needle bs

/-- Python `"tasker" in s.lower()`: substring containment after
lower-casing, on the underlying character lists. -/
def has_tasker (s : String) : Bool :=
  chars_contains "tasker".data (s.data.map Char.toLower)

/-- `Goal.is_tasker_goal`: the slug or the title mentions tasker. -/
def is_tasker_goal (g : Goal) : Bool := has_tasker g.slug || has_tasker g.title

/-- `Goal.is_manual` (lines 264–268): tasker goals are never manual; any
other goal is manual exactly when it has no autodata source. -/
def is_manual (g : Goal) : Bool :=
  if g.is_tasker_goal then false else g.autodata.isNone

/-- `Goal.is_updated_today`: the last datapoint's day is today or later. -/
def is_updated_today (g : Goal) (now : ℤ) : Bool :=
  g.last_datapoint.date ≥ now / 86400

/-- The horizon computed inside `data_rate`:
`datetime.now().date() - self.rate_timedelta`. -/
def horizon (g : Goal) (now : ℤ) : ℤ := now / 86400 - rate_window_days g.runits

/-- Python `sorted(dps, key=lambda dp: dp.datetime)`. -/
def sortByTime (dps : List Datapoint) : List Datapoint :=
  dps.mergeSort (fun a b => decide (a.time ≤ b.time))

/-- `Goal.data_rate` (lines 152–181) as a pure function of the hydrated
datapoint list.  `none` embeds the `NotImplemented` sentinel.  The source
first returns the sentinel when `rate == 0`, then partitions the datapoints
around the horizon date, then branches on the goal kind: cumulative kinds
subtract the last pre-horizon value from the last in-window value (sentinel
when there is an in-window point but no pre-horizon baseline, total 0 when
there is no in-window point), incremental kinds sum the in-window values,
and every other kind is the sentinel. -/
def data_rate (g : Goal) (now : ℤ) : Option ℚ :=
  if g.rate = 0 then none
  else
    let irrelevant_datapoints :=
      sortByTime (g.datapoints.filter (fun dp => decide (dp.date ≤ g.horizon now)))
    let relevant_datapoints :=
      sortByTime (g.datapoints.filter (fun dp => decide (g.horizon now < dp.date)))
    if g.gtype ∈ ["biker", "fatloser", "gainer", "inboxer"] then
      match relevant_datapoints.getLast? with
      | some last_rel =>
        match irrelevant_datapoints.getLast? with
        | some last_irr => some ((last_rel.value - last_irr.value) / g.rate)
        | none => none
      | none => some (0 / g.rate)
    else if g.gtype ∈ ["hustler", "drinker"] then
      some (((relevant_datapoints.map Datapoint.value).sum) / g.rate)
    else none

/-- `Goal.format_epsilon_delta` (lines 183–205): the urgency glyph derived
from `data_rate`, with the polarity reversed for do-less goals. -/
def format_epsilon_delta (g : Goal) (now : ℤ) : String :=
  match g.data_rate now with
  | none => "?"
  | some fraction =>
    if g.gtype == "drinker" then
      if 1 ≤ fraction then "!"
      else if 0 < fraction then "ε"
      else if fraction = 0 then "Δ"
      else "?"
    else
      if 1 ≤ fraction then "Δ"
      else if 0 < fraction then "ε"
      else if fraction = 0 then "0"
      else "!"

/-- `Goal.default_description`: the generated datapoint comment, built from
the goal's repr and the current clock. -/
def default_description (g : Goal) (now : ℤ) : String :=
  "Updated from Goal(" ++ g.slug ++ ") at " ++ toString now

/-- `Goal.update` (lines 322–330) on a plain goal: a null value defaults to
1, a null description defaults to the generated one, the datapoint
`(value, description)` is posted, and the snapshot is then re-fetched.  The
fetch result is the explicit `fresh` argument; the returned pair is the
posted datapoint and the goal's state after the re-fetch. -/
def update (g : Goal) (now : ℤ) (value : Option ℚ) (description : Option String)
    (fresh : Goal) : (ℚ × String) × Goal :=
  let v := match value with | none => 1 | some v => v
  let d := match description with | none => g.default_description now | some d => d
  ((v, d), fresh)

end Goal

/-- The dispatch target of `create_goal` (lines 534–544): a custom
slug-registered class, the plain `Goal`, the toggl variant, or the generic
remote-refresh variant. -/
inductive GoalVariant where
  | custom (slug : String)
  | plain
  | toggl
  | remoteApi
deriving DecidableEq, Repr

/-- The keys of the `custom_goals` registry (lines 520–531). -/
def custom_goal_slugs : List String :=
  ["todoist-backlog", "todoist-unprioritized", "todoist-breakdown",
   "todoist-inbox", "youtube-backlog-upgrade", "papers-backlog",
   "joplin-notes", "papers-notes", "screenshots-parse", "jrnl"]

/-- `create_goal` (lines 534–544): slug-registry hits go to their custom
class; a null or api autodata source gives a plain goal; toggl gives the
toggl variant; any other non-null source gives the remote-refresh variant. -/
def create_goal (g : Goal) : GoalVariant × Goal :=
  if g.slug ∈ custom_goal_slugs then (.custom g.slug, g)
  else
    match g.autodata with
    | none => (.plain, g)
    | some a =>
      if a = "api" then (.plain, g)
      else if a = "toggl" then (.toggl, g)
      else (.remoteApi, g)

/-- The on-disk cache the specification describes: a snapshot of goal
dictionaries together with the file's age in seconds.  The embedding passes
the cache (when one exists) to the store constructor explicitly, so that
dependence on it is expressible. -/
structure CacheFile where
  age_seconds : ℤ
  payload : List Goal
deriving DecidableEq, Repr

/-- The 30-minute time-to-live of the specification, in seconds. -/
def cache_ttl_seconds : ℤ := 1800

/-- `AllGoals.__init__` (lines 556–559): pull the goal list from the remote
service and dispatch every entry through `create_goal`.  The source reads
nothing else: the `cache` argument reifies whatever cache file might sit on
disk, and the constructor never consults it (there is no cache logic in the
code). -/
def allGoals_init (network : List Goal) (cache : Option CacheFile) :
    List (GoalVariant × Goal) :=
  network.map create_goal

/-- `AllGoals.ensure_datapoints` (lines 561–567).  Each goal is submitted to
a worker pool; `goal.get_full_data` runs in its own task and assigns that
goal's snapshot itself, and the executor's context exit waits for every task,
so every successful fetch lands regardless of other tasks.  The collection
loop then reads `future.result()` for each task and the first failed result
re-raises there, aborting the loop and propagating to the caller.  `jobs`
pairs each goal with its fetch outcome, in completion order; the result is
the batch call's outcome together with the goal collection afterwards. -/
def ensure_datapoints (jobs : List (Goal × Except String Goal)) :
    Except String Unit × List Goal :=
  let updated := jobs.map (fun j => match j.2 with | .ok g2 => g2 | .error _ => j.1)
  match jobs.findSome? (fun j => match j.2 with | .error e => some e | .ok _ => none) with
  | some e => (.error e, updated)
  | none => (.ok (), updated)

/-- The optional filter parameters of `AllGoals.filter_goals`
(lines 572–582).  `since` and `days` are day counts; `n` is the truncation
length. -/
structure FilterParams where
  manual : Option Bool
  finished : Option Bool
  do_less : Option Bool
  done_today : Option Bool
  over_rate : Option Bool
  n : Option ℕ
  since : Option ℤ
  days : Option ℤ
deriving DecidableEq, Repr

/-- All filter parameters inactive. -/
def FilterParams.inactive : FilterParams :=
  { manual := none, finished := none, do_less := none, done_today := none,
    over_rate := none, n := none, since := none, days := none }

/-- One `if param is not None: goals = filter(lambda g: g.is_due_today or
predicate, goals)` block of `filter_goals`: inactive parameters leave the
list alone, and every active predicate is disjoined with the due-today
exemption (Python `or` short-circuits, so a due-today goal never evaluates
the right-hand side). -/
def stage {β : Type} (now : ℤ) (param : Option β) (p : β → Goal → Bool)
    (goals : List Goal) : List Goal :=
  match param with
  | none => goals
  | some b => goals.filter (fun g => g.is_due_today now || p b g)

/-- `AllGoals.filter_goals` (lines 572–614): sort ascending by losedate,
then apply the finished, manual, do-less, done-today, over-rate, since and
days stages in the source's order, then truncate to the first `n`.  The
do-less stage ignores the parameter's value (the commented-out comparison in
the source was replaced by `not g.is_do_less`).  The global module clock and
the per-call `datetime.now()` are identified as the single fixed `now`. -/
def filter_goals (now : ℤ) (ps : FilterParams) (goals : List Goal) : List Goal :=
  let gs := goals.mergeSort (fun a b => decide (a.losedate ≤ b.losedate))
  let gs := stage now ps.finished (fun f g => g.won == f) gs
  let gs := stage now ps.manual (fun m g => g.is_manual == m) gs
  let gs := stage now ps.do_less (fun _ g => !g.is_do_less) gs
  let gs := stage now ps.done_today (fun dt g => g.is_updated_today now == dt) gs
  let gs := stage now ps.over_rate
    (fun o g => !((g.format_epsilon_delta now == "Δ") == o)) gs
  let gs := stage now ps.since
    (fun s g => decide (g.last_datapoint.time < now - s * 86400)) gs
  let gs := stage now ps.days (fun d g => decide (g.losedate ≤ now + d * 86400)) gs
  match ps.n with
  | none => gs
  | some k => gs.take k

/-- A goal together with its memo table: `functools.cached_property` stores
the value of `data_rate` in the instance dictionary on first read and never
recomputes while the entry is present.  `memo = none` means not yet
computed; the stored value is itself an `Option ℚ` (the sentinel is
cacheable). -/
structure GoalMem where
  goal : Goal
  memo : Option (Option ℚ)
deriving DecidableEq, Repr

/-- Reading the `data_rate` cached property on a goal instance: return the
memoized value if present, otherwise compute it from the current snapshot
and store it. -/
def read_data_rate (s : GoalMem) (now : ℤ) : Option ℚ × GoalMem :=
  match s.memo with
  | some v => (v, s)
  | none =>
    let v := s.goal.data_rate now
    (v, { s with memo := some v })

/-- `Goal.get_full_data` (lines 270–278) at the instance level: the fetched
record replaces `self.dictionary` wholesale.  Nothing touches the instance
dictionary's memo entries, so the memo table survives. -/
def mem_get_full_data (s : GoalMem) (fresh : Goal) : GoalMem :=
  { s with goal := fresh }

/-- `Goal.update` at the instance level: post the (defaulted) datapoint,
then `get_full_data`; the memo table survives the snapshot replacement. -/
def mem_update (s : GoalMem) (now : ℤ) (value : Option ℚ)
    (description : Option String) (fresh : Goal) : (ℚ × String) × GoalMem :=
  let posted := (s.goal.update now value description fresh).1
  (posted, mem_get_full_data s fresh)

/-! Concrete fixtures used by counterexamples and witnesses. -/

/-- A datapoint at day 97 with value 5. -/
def dpDay97 : Datapoint := { value := 5, time := 86400 * 97 }

/-- A do-more cumulative goal with no datapoints at all. -/
def gainerNoData : Goal :=
  { slug := "books", title := "Books", gtype := "gainer", autodata := none,
    losedate := 0, rate := 10, runits := .w, won := false, lane := 1, yaw := 1,
    last_datapoint := { value := 0, time := 0 }, datapoints := [] }

/-- A do-more cumulative goal whose only datapoint lies inside the trailing
week window (day 97, viewed from day 100). -/
def gainerOnlyWindowData : Goal :=
  { gainerNoData with slug := "pages", datapoints := [dpDay97] }

/-- A manually-updated goal whose slug mentions tasker, with a losedate far
in the future. -/
def taskerManualGoal : Goal :=
  { slug := "tasker-inbox", title := "Inbox count", gtype := "hustler",
    autodata := none, losedate := 86400 * 400, rate := 1, runits := .d,
    won := false, lane := 1, yaw := 1,
    last_datapoint := { value := 1, time := 0 }, datapoints := [dpDay97] }

/-- A plain manually-updated goal, no tasker anywhere, far-future losedate. -/
def plainManualGoal : Goal :=
  { taskerManualGoal with slug := "reading", title := "Read more" }

/-- A goal that is due today for `now = 0`. -/
def dueNowGoal : Goal :=
  { plainManualGoal with slug := "urgent", losedate := 0 }

/-- A goal as returned by the network in the cache scenario. -/
def netGoal : Goal := { plainManualGoal with slug := "from-network" }

/-- A goal as stored in the (ignored) cache file in the cache scenario. -/
def cachedGoal : Goal := { plainManualGoal with slug := "from-cache" }

/-- A goal whose hydration will fail in the batch scenario. -/
def failingGoal : Goal := { plainManualGoal with slug := "failing" }

/-- The sibling goal whose hydration succeeds in the batch scenario. -/
def siblingGoal : Goal := { plainManualGoal with slug := "sibling" }

/-- The fresh snapshot the sibling's hydration returns. -/
def siblingFresh : Goal := { siblingGoal with datapoints := [dpDay97] }

/-- A goal instance whose `data_rate` memo is already populated with 5. -/
def memoizedGoal : GoalMem := { goal := gainerNoData, memo := some (some 5) }

/-! Helper lemmas. -/

/-- The sort inside `data_rate` returns no last element exactly when its
input list is empty. -/
theorem sortByTime_getLast?_eq_none (dps : List Datapoint) :
    (Goal.sortByTime dps).getLast? = none ↔ dps = [] := by
  rw [List.getLast?_eq_none_iff, Goal.sortByTime,
    ← List.length_eq_zero, List.length_mergeSort, List.length_eq_zero]

/-- A goal that is in a stage's input and is due today is in its output:
inactive stages pass everything through, and active stages short-circuit on
the due-today disjunct. -/
theorem mem_stage {β : Type} (now : ℤ) (o : Option β) (p : β → Goal → Bool)
    (gs : List Goal) (g : Goal) (hg : g ∈ gs) (hd : g.is_due_today now = true) :
    g ∈ stage now o p gs := by
  cases o with
  | none => exact hg
  | some b => exact List.mem_filter.mpr ⟨hg, by simp [hd]⟩

/-- Every stage's output is a sublist of its input. -/
theorem stage_sublist {β : Type} (now : ℤ) (o : Option β) (p : β → Goal → Bool)
    (gs : List Goal) : (stage now o p gs).Sublist gs := by
  cases o with
  | none => exact List.Sublist.refl gs
  | some b => exact List.filter_sublist gs

/-- A list that a stage was applied to is still selected from any superlist
of the stage's input. -/
theorem stage_sublist_of {β : Type} (now : ℤ) (o : Option β) (p : β → Goal → Bool)
    (gs base : List Goal) (h : gs.Sublist base) : (stage now o p gs).Sublist base :=
  (stage_sublist now o p gs).trans h

/-- `filter_goals` only ever selects from the sorted input list. -/
theorem filter_goals_sublist_sorted (now : ℤ) (ps : FilterParams)
    (goals : List Goal) :
    (filter_goals now ps goals).Sublist
      (goals.mergeSort (fun a b => decide (a.losedate ≤ b.losedate))) := by
  obtain ⟨pm, pf, pdl, pdt, por, pn, psi, pda⟩ := ps
  cases pn with
  | none =>
    show (stage now pda _ _).Sublist _
    apply stage_sublist_of
    apply stage_sublist_of
    apply stage_sublist_of
    apply stage_sublist_of
    apply stage_sublist_of
    apply stage_sublist_of
    apply stage_sublist_of
    exact List.Sublist.refl _
  | some k =>
    show ((stage now pda _ _).take k).Sublist _
    apply List.Sublist.trans (List.take_sublist k _)
    apply stage_sublist_of
    apply stage_sublist_of
    apply stage_sublist_of
    apply stage_sublist_of
    apply stage_sublist_of
    apply stage_sublist_of
    apply stage_sublist_of
    exact List.Sublist.refl _

/-- Membership in `filter_goals` with only the manual-true parameter
active: the goal is in the collection and passes the manual stage. -/
theorem mem_filter_goals_manual_true (now : ℤ) (goals : List Goal) (g : Goal) :
    (g ∈ filter_goals now { FilterParams.inactive with manual := some true } goals ↔
      g ∈ goals ∧ (g.is_due_today now || (g.is_manual == true)) = true) := by
  simp only [filter_goals, FilterParams.inactive, stage, List.mem_filter,
    List.mem_mergeSort]

/-! Claim theorems. -/

/-- C1, counterexample: the claim asserts that a goal with lane 1 and yaw 1
has the borderline-good color (yellow); the code's first branch already
catches product 1 and returns the on-track color (blue). -/
theorem color_claim_counterexample :
    Goal.color 1 1 = Except.ok "blue" ∧ Goal.color 1 1 ≠ Except.ok "yellow" := by
  refine ⟨rfl, fun h => ?_⟩
  have hb : Goal.color 1 1 = Except.ok "blue" := rfl
  rw [hb] at h
  exact absurd (Except.ok.inj h) (by decide)

/-- C1, amended: the branches of `color` are tested in order, so every
product at least −1 yields the on-track color and every product at most −2
yields the critical color; the ahead, borderline-good and borderline-bad
branches are unreachable, and no integer product reaches the failure
branch.  In particular lane 1, yaw 1 is on-track and lane −1, yaw 2 is
critical. -/
theorem color_bands_amended (lane yaw : ℤ) :
    (lane * yaw ≥ -1 → Goal.color lane yaw = Except.ok "blue") ∧
    (lane * yaw ≤ -2 → Goal.color lane yaw = Except.ok "red") ∧
    (∀ e, Goal.color lane yaw ≠ Except.error e) ∧
    Goal.color 1 1 = Except.ok "blue" ∧ Goal.color (-1) 2 = Except.ok "red" := by
  refine ⟨fun h => ?_, fun h => ?_, fun e => ?_, rfl, rfl⟩
  · rw [Goal.color, if_pos h]
  · rw [Goal.color, if_neg (by omega), if_neg (by omega), if_neg (by omega),
      if_neg (by omega), if_pos h]
  · by_cases h1 : lane * yaw ≥ -1
    · rw [Goal.color, if_pos h1]; simp
    · rw [Goal.color, if_neg h1, if_neg (by omega), if_neg (by omega),
        if_neg (by omega), if_pos (by omega)]
      simp

/-- C1, witness for the amended theorem at concrete products. -/
theorem color_bands_amended_witness :
    Goal.color 2 1 = Except.ok "blue" ∧ Goal.color (-2) 1 = Except.ok "red" :=
  ⟨(color_bands_amended 2 1).1 (by decide), (color_bands_amended (-2) 1).2.1 (by decide)⟩

/-- C2, counterexample: a cumulative goal with no datapoint anywhere (so in
particular none on or before the window's start) gets `data_rate` 0, not the
undefined sentinel: the claim's "regardless of how many datapoints lie
within the window (including ... none at all)" fails on the empty window. -/
theorem data_rate_empty_window_counterexample :
    gainerNoData.gtype ∈ ["biker", "fatloser", "gainer", "inboxer"] ∧
    gainerNoData.datapoints.filter
      (fun dp => decide (dp.date ≤ gainerNoData.horizon 0)) = [] ∧
    gainerNoData.data_rate 0 = some 0 := by
  refine ⟨by decide, rfl, ?_⟩
  simp [Goal.data_rate, Goal.sortByTime, gainerNoData]

/-- C2, amended: for a cumulative-kind goal with nonzero rate and no
datapoint dated on or before the window's start, `data_rate` is the
undefined sentinel when at least one datapoint lies within the window, but
it is 0 (not the sentinel) when the window is empty. -/
theorem data_rate_baseline_amended (g : Goal) (now : ℤ)
    (hk : g.gtype ∈ ["biker", "fatloser", "gainer", "inboxer"])
    (hr : ¬ g.rate = 0)
    (hbase : g.datapoints.filter (fun dp => decide (dp.date ≤ g.horizon now)) = []) :
    (g.datapoints.filter (fun dp => decide (g.horizon now < dp.date)) ≠ [] →
      g.data_rate now = none) ∧
    (g.datapoints.filter (fun dp => decide (g.horizon now < dp.date)) = [] →
      g.data_rate now = some 0) := by
  have hirr : (Goal.sortByTime (g.datapoints.filter
      (fun dp => decide (dp.date ≤ g.horizon now)))).getLast? = none :=
    (sortByTime_getLast?_eq_none _).mpr hbase
  constructor
  · intro hne
    obtain ⟨x, hx⟩ := Option.ne_none_iff_exists'.mp
      (fun hno => hne ((sortByTime_getLast?_eq_none _).mp hno))
    simp only [Goal.data_rate, if_neg hr, if_pos hk, hx, hirr]
  · intro hemp
    have hrel : (Goal.sortByTime (g.datapoints.filter
        (fun dp => decide (g.horizon now < dp.date)))).getLast? = none :=
      (sortByTime_getLast?_eq_none _).mpr hemp
    simp only [Goal.data_rate, if_neg hr, if_pos hk, hrel, zero_div]

/-- C2, witness: a gainer goal whose only datapoint lies inside the window
(day 97, window start day 93 seen from day 100) has the undefined sentinel. -/
theorem data_rate_baseline_amended_witness :
    gainerOnlyWindowData.data_rate (86400 * 100) = none :=
  (data_rate_baseline_amended gainerOnlyWindowData (86400 * 100)
    (by decide) (by decide) (by decide)).1 (by decide)

/-- C3: `filter_goals` keeps every due-today goal through all predicate
stages, the truncated result is the untruncated result cut to the first `n`
(so truncation is applied last and is the only step that can drop a
due-today goal), and the output is sorted ascending by losedate. -/
theorem filter_goals_due_today_retained (now : ℤ) (ps : FilterParams)
    (goals : List Goal) (g : Goal)
    (hg : g ∈ goals) (hd : g.is_due_today now = true) :
    g ∈ filter_goals now { ps with n := none } goals ∧
    filter_goals now ps goals =
      (filter_goals now { ps with n := none } goals).take
        (ps.n.getD (filter_goals now { ps with n := none } goals).length) ∧
    (filter_goals now ps goals).Pairwise (fun a b => a.losedate ≤ b.losedate) := by
  obtain ⟨pm, pf, pdl, pdt, por, pn, psi, pda⟩ := ps
  refine ⟨?_, ?_, ?_⟩
  · exact mem_stage _ _ _ _ _ (mem_stage _ _ _ _ _ (mem_stage _ _ _ _ _
      (mem_stage _ _ _ _ _ (mem_stage _ _ _ _ _ (mem_stage _ _ _ _ _
      (mem_stage _ _ _ _ _ (List.mem_mergeSort.mpr hg) hd) hd) hd) hd) hd) hd) hd
  · cases pn with
    | none => simp
    | some k => rfl
  · have hp0 : (goals.mergeSort (fun a b => decide (a.losedate ≤ b.losedate))).Pairwise
        (fun a b => (decide (a.losedate ≤ b.losedate)) = true) :=
      List.sorted_mergeSort (fun a b c hab hbc => by simp at hab hbc ⊢; omega)
        (fun a b => by simp; omega) goals
    exact (hp0.imp (fun h => by simpa using h)).sublist
      (filter_goals_sublist_sorted now _ goals)

/-- C3, witness: a goal due at `now = 0` is retained with every parameter
inactive. -/
theorem filter_goals_due_today_retained_witness :
    dueNowGoal ∈ filter_goals 0 { FilterParams.inactive with n := none } [dueNowGoal] :=
  (filter_goals_due_today_retained 0 FilterParams.inactive [dueNowGoal] dueNowGoal
    (List.mem_singleton.mpr rfl) (by decide)).1

/-- C4, counterexample: a cache file of age 0 (well inside the 30-minute
TTL) holding a different goal is ignored — the store is built from the
network pull, not from the cache, because the constructor implements no
cache logic at all. -/
theorem init_ignores_fresh_cache_counterexample :
    (0 : ℤ) ≤ cache_ttl_seconds ∧
    allGoals_init [netGoal] (some { age_seconds := 0, payload := [cachedGoal] }) =
      [(GoalVariant.plain, netGoal)] ∧
    allGoals_init [netGoal] (some { age_seconds := 0, payload := [cachedGoal] }) ≠
      [(GoalVariant.plain, cachedGoal)] := by
  decide

/-- C4, amended: on construction the store always pulls the goal list fresh
from the remote service and dispatches it through `create_goal`, whatever
cache file exists and whatever its age; the source has no cache read, no
TTL check and no cache write. -/
theorem allGoals_init_always_pulls_fresh (network : List Goal)
    (cache : Option CacheFile) :
    allGoals_init network cache = network.map create_goal ∧
    allGoals_init network cache = allGoals_init network none :=
  ⟨rfl, rfl⟩

/-- C5, counterexample: with one failing fetch and one succeeding sibling,
the sibling's snapshot is replaced, but the batch call itself surfaces the
failure to the caller instead of attaching it to the failing goal. -/
theorem ensure_datapoints_error_propagates :
    (ensure_datapoints
      [(failingGoal, Except.error "boom"), (siblingGoal, Except.ok siblingFresh)]).2 =
      [failingGoal, siblingFresh] ∧
    (ensure_datapoints
      [(failingGoal, Except.error "boom"), (siblingGoal, Except.ok siblingFresh)]).1 =
      Except.error "boom" :=
  ⟨rfl, rfl⟩

/-- If some job in the batch failed, the collection loop finds an error. -/
theorem findSome?_error_of_mem (jobs : List (Goal × Except String Goal))
    (j : Goal × Except String Goal) (hj : j ∈ jobs) (e : String)
    (he : j.2 = Except.error e) :
    ∃ e2, jobs.findSome?
      (fun j => match j.2 with | .error e => some e | .ok _ => none) = some e2 := by
  induction jobs with
  | nil => simp at hj
  | cons a as ih =>
    rcases List.mem_cons.mp hj with h | h
    · subst h
      exact ⟨e, by simp [List.findSome?, he]⟩
    · rcases ih h with ⟨e2, he2⟩
      cases ha : a.2 with
      | error e3 => exact ⟨e3, by simp [List.findSome?, ha]⟩
      | ok v => exact ⟨e2, by simp [List.findSome?, ha, he2]⟩

/-- C5, amended: the batch hydration replaces the snapshot of every goal
whose own fetch succeeded, independently of the other goals' outcomes (each
worker task assigns its own goal), but any fetch failure is re-raised to the
caller when the loop collects results, so the batch call aborts with that
error instead of attaching it to the failing goal; the call succeeds only
when every fetch succeeded. -/
theorem ensure_datapoints_amended (jobs : List (Goal × Except String Goal)) :
    (ensure_datapoints jobs).2 =
      jobs.map (fun j => match j.2 with | .ok g2 => g2 | .error _ => j.1) ∧
    (∀ j ∈ jobs, (∃ e, j.2 = Except.error e) →
      ∃ e2, (ensure_datapoints jobs).1 = Except.error e2) ∧
    ((∀ j ∈ jobs, ∃ g2, j.2 = Except.ok g2) →
      (ensure_datapoints jobs).1 = Except.ok ()) := by
  refine ⟨?_, ?_, ?_⟩
  · unfold ensure_datapoints
    split <;> rfl
  · intro j hj he
    obtain ⟨e, he⟩ := he
    obtain ⟨e2, h2⟩ := findSome?_error_of_mem jobs j hj e he
    exact ⟨e2, by unfold ensure_datapoints; rw [h2]⟩
  · intro hall
    have hnone : jobs.findSome?
        (fun j => match j.2 with | .error e => some e | .ok _ => none) = none := by
      rw [List.findSome?_eq_none_iff]
      intro j hj
      obtain ⟨g2, hg2⟩ := hall j hj
      simp [hg2]
    unfold ensure_datapoints
    rw [hnone]

/-- C5, witness for the amended theorem on a one-job batch that fails. -/
theorem ensure_datapoints_amended_witness :
    ∃ e2, (ensure_datapoints [(failingGoal, Except.error "boom")]).1 =
      Except.error e2 :=
  (ensure_datapoints_amended [(failingGoal, Except.error "boom")]).2.1
    (failingGoal, Except.error "boom") (List.mem_singleton.mpr rfl) ⟨"boom", rfl⟩

/-- C6, counterexample: a goal with no autodata source whose slug mentions
tasker, not due today, is dropped by the manual-true filter — so "every
goal with no autodata source is retained" fails. -/
theorem manual_filter_tasker_counterexample :
    taskerManualGoal.autodata = none ∧
    taskerManualGoal.is_due_today 0 = false ∧
    taskerManualGoal ∈ [taskerManualGoal] ∧
    filter_goals 0 { FilterParams.inactive with manual := some true }
      [taskerManualGoal] = [] := by
  refine ⟨rfl, by decide, List.mem_singleton.mpr rfl, ?_⟩
  rw [List.eq_nil_iff_forall_not_mem]
  intro x hx
  rw [mem_filter_goals_manual_true] at hx
  obtain ⟨hmem, hpred⟩ := hx
  rw [List.mem_singleton] at hmem
  subst hmem
  exact absurd hpred (by decide)

/-- C6, amended: with the manual-true filter active, the retained
non-due-today goals are exactly the goals of the collection that have no
autodata source and are not tasker goals (neither slug nor title mentions
tasker). -/
theorem manual_filter_amended (now : ℤ) (goals : List Goal) (g : Goal)
    (hnd : g.is_due_today now = false) :
    (g ∈ filter_goals now { FilterParams.inactive with manual := some true } goals ↔
      g ∈ goals ∧ g.autodata = none ∧ g.is_tasker_goal = false) := by
  rw [mem_filter_goals_manual_true, hnd]
  cases ht : g.is_tasker_goal <;>
    simp [Goal.is_manual, ht, Option.isNone_iff_eq_none]

/-- C6, witness: a plain manual goal (autodata null, no tasker naming), not
due today, is retained by the manual-true filter. -/
theorem manual_filter_amended_witness :
    plainManualGoal ∈ filter_goals 0
      { FilterParams.inactive with manual := some true } [plainManualGoal] :=
  (manual_filter_amended 0 [plainManualGoal] plainManualGoal (by decide)).mpr
    ⟨List.mem_singleton.mpr rfl, rfl, by decide⟩

/-- C7: on a plain goal, an absent update value defaults the posted value
to 1 rather than failing, an absent description defaults to the generated
one, and the goal's snapshot is replaced by the post-update re-fetch. -/
theorem goal_update_defaults (g : Goal) (now : ℤ) (d : Option String)
    (fresh : Goal) :
    (g.update now none d fresh).1.1 = 1 ∧
    (g.update now none none fresh).1.2 = g.default_description now ∧
    (∀ v descr, (g.update now v descr fresh).2 = fresh) :=
  ⟨rfl, rfl, fun _ _ => rfl⟩

/-- C8: `filter_goals` is a pure function of the collection, the parameters
and the clock — it never mutates the stored collection — so two successive
applications with the same parameters and a fixed clock return identical
ordered results. -/
theorem filter_goals_idempotent (now : ℤ) (ps : FilterParams)
    (goals : List Goal) (r1 r2 : List Goal)
    (h1 : filter_goals now ps goals = r1) (h2 : filter_goals now ps goals = r2) :
    r1 = r2 :=
  h1.symm.trans h2

/-- C8, witness: two applications on a one-goal collection agree. -/
theorem filter_goals_idempotent_witness : [dueNowGoal] = [dueNowGoal] :=
  filter_goals_idempotent 0 FilterParams.inactive [dueNowGoal]
    [dueNowGoal] [dueNowGoal]
    (by simp [filter_goals, stage, FilterParams.inactive])
    (by simp [filter_goals, stage, FilterParams.inactive])

/-- C9: once `data_rate` has been read (memoizing it in the instance), any
later read returns the same memoized value even after `get_full_data` or
`update` replaces the whole snapshot, and even at a later clock — snapshot
replacement never invalidates the memo. -/
theorem data_rate_memo_stable (s : GoalMem) (now now2 : ℤ) (v : Option ℚ)
    (s2 : GoalMem) (h : read_data_rate s now = (v, s2)) (fresh : Goal)
    (value : Option ℚ) (d : Option String) :
    (read_data_rate (mem_get_full_data s2 fresh) now2).1 = v ∧
    (read_data_rate (mem_update s2 now2 value d fresh).2 now2).1 = v := by
  have hm : s2.memo = some v := by
    unfold read_data_rate at h
    cases hs : s.memo with
    | some w =>
      rw [hs] at h
      injection h with h1 h2
      rw [← h2, hs, h1]
    | none =>
      rw [hs] at h
      injection h with h1 h2
      rw [← h2]
      exact congrArg some h1
  constructor
  · simp [read_data_rate, mem_get_full_data, hm]
  · simp [read_data_rate, mem_update, mem_get_full_data, hm]

/-- C9, witness: an instance whose memo holds 5 keeps returning 5 after a
snapshot replacement and after an update. -/
theorem data_rate_memo_stable_witness :
    (read_data_rate (mem_get_full_data memoizedGoal netGoal) 7).1 = some 5 ∧
    (read_data_rate (mem_update memoizedGoal 7 none none netGoal).2 7).1 = some 5 :=
  data_rate_memo_stable memoizedGoal 0 7 (some 5) memoizedGoal rfl netGoal none none

/-- C10: the do-less stage never consults the parameter's boolean — any two
non-null values select the same goals — and with only that parameter active
the result is exactly the sorted collection minus the do-less goals that
are not due today. -/
theorem do_less_filter_ignores_value (now : ℤ) (ps : FilterParams)
    (goals : List Goal) (b b2 : Bool) :
    filter_goals now { ps with do_less := some b } goals =
      filter_goals now { ps with do_less := some b2 } goals ∧
    filter_goals now { FilterParams.inactive with do_less := some b } goals =
      (goals.mergeSort (fun a g2 => decide (a.losedate ≤ g2.losedate))).filter
        (fun g => g.is_due_today now || !g.is_do_less) :=
  ⟨rfl, rfl⟩

end Beeminder
